import Mathlib

/-
Shallow embedding of the airline reservation system (src/main.cpp).

The SQLite database is modelled as two tables, each a list of rows:
`Flights` and `Users`.  Every operation of the program opens the
database, runs validation queries, and then issues INSERT/UPDATE/DELETE
statements; here each operation is a pure function from the database
state (plus the console inputs) to an `OpResult`: the possible
user-visible error message (`none` on success) together with the
database state after the operation.  SQL statements are modelled on the
happy path (storage never fails); validation failures return before any
statement runs, exactly as the C++ code `return`s to the menu loop.
-/

structure Flight where
  flightNumber : String
  airlineName : String
  startingPoint : String
  destination : String
  totalTickets : Int
  availableTickets : Int
deriving DecidableEq, Repr

structure User where
  name : String
  userID : String
  flightNumber : String
  seatNumber : Int
deriving DecidableEq, Repr

structure DB where
  flights : List Flight
  users : List User
deriving DecidableEq, Repr

structure OpResult where
  err : Option String
  db : DB
deriving DecidableEq, Repr

/-- Query `SELECT 1 FROM Flights WHERE flightNumber = ?` (src/main.cpp, flightExists). -/
def flightExists (flightNumber : String) (db : DB) : Bool :=
  db.flights.any (fun f => f.flightNumber == flightNumber)

/-- Query `SELECT 1 FROM Users WHERE userID = ?` (src/main.cpp, userExists). -/
def userExists (userID : String) (db : DB) : Bool :=
  db.users.any (fun u => u.userID == userID)

/-- Query `SELECT 1 FROM Users WHERE flightNumber = ? AND seatNumber = ?`; available
iff no row matches (src/main.cpp, isSeatAvailable). -/
def isSeatAvailable (flightNumber : String) (seatNumber : Int) (db : DB) : Bool :=
  !(db.users.any (fun u => u.flightNumber == flightNumber && u.seatNumber == seatNumber))

/-- Query `SELECT seatNumber FROM Users WHERE flightNumber = ?` (src/main.cpp, getTakenSeats). -/
def getTakenSeats (flightNumber : String) (db : DB) : List Int :=
  (db.users.filter (fun u => u.flightNumber == flightNumber)).map (fun u => u.seatNumber)

/-- src/main.cpp, addFlight: duplicate check, then
`INSERT INTO Flights VALUES (...)` with availableTickets = totalTickets. -/
def addFlight (flightNumber airlineName startingPoint destination : String)
    (totalTickets : Int) (db : DB) : OpResult :=
  if flightExists flightNumber db then
    ⟨some "Flight with this number already exists!", db⟩
  else
    ⟨none, { db with flights := db.flights ++
      [⟨flightNumber, airlineName, startingPoint, destination, totalTickets, totalTickets⟩] }⟩

/-- src/main.cpp, modifyFlight: existence check, then
`UPDATE Flights SET ... WHERE flightNumber = ?` overwriting every field
except the key, with no constraint between the new counters. -/
def modifyFlight (flightNumber airlineName startingPoint destination : String)
    (totalTickets availableTickets : Int) (db : DB) : OpResult :=
  if !flightExists flightNumber db then
    ⟨some "Flight not found!", db⟩
  else
    ⟨none, { db with flights := db.flights.map (fun f =>
      if f.flightNumber == flightNumber then
        { f with airlineName := airlineName, startingPoint := startingPoint,
                 destination := destination, totalTickets := totalTickets,
                 availableTickets := availableTickets }
      else f) }⟩

/-- src/main.cpp, deleteFlight: existence check, then
`DELETE FROM Users WHERE flightNumber = ?` followed by
`DELETE FROM Flights WHERE flightNumber = ?` (manual cascade). -/
def deleteFlight (flightNumber : String) (db : DB) : OpResult :=
  if !flightExists flightNumber db then
    ⟨some "Flight not found!", db⟩
  else
    ⟨none, { flights := db.flights.filter (fun f => !(f.flightNumber == flightNumber)),
             users := db.users.filter (fun u => !(u.flightNumber == flightNumber)) }⟩

/-- src/main.cpp, addUser: duplicate-ID check, flight-existence check,
seat check, then `INSERT INTO Users VALUES (...)` followed by
`UPDATE Flights SET availableTickets = availableTickets - 1 WHERE flightNumber = ?`.
No capacity check. -/
def addUser (userID name flightNumber : String) (seatNumber : Int) (db : DB) : OpResult :=
  if userExists userID db then
    ⟨some "User with this ID already exists!", db⟩
  else if !flightExists flightNumber db then
    ⟨some "Flight doesn\x27t exist!", db⟩
  else if !isSeatAvailable flightNumber seatNumber db then
    ⟨some ("Seat " ++ toString seatNumber ++ " is already taken on this flight!"), db⟩
  else
    ⟨none, { flights := db.flights.map (fun f =>
               if f.flightNumber == flightNumber then
                 { f with availableTickets := f.availableTickets - 1 }
               else f),
             users := db.users ++ [⟨name, userID, flightNumber, seatNumber⟩] }⟩

/-- The row transformer of `UPDATE Users SET name = ?, flightNumber = ?,
seatNumber = ? WHERE userID = ?` (src/main.cpp, modifyUser): rows whose
userID matches are overwritten (userID itself is untouched), others kept. -/
def modifyUserRow (userID name flightNumber : String) (seatNumber : Int) (u : User) : User :=
  if u.userID == userID then
    { u with name := name, flightNumber := flightNumber, seatNumber := seatNumber }
  else u

/-- src/main.cpp, modifyUser: existence checks, then the seat check
`SELECT 1 FROM Users WHERE flightNumber = ? AND seatNumber = ? AND userID != ?`
(self-exclusion), then `UPDATE Users SET name, flightNumber, seatNumber
WHERE userID = ?`.  No ticket counter is touched. -/
def modifyUser (userID name flightNumber : String) (seatNumber : Int) (db : DB) : OpResult :=
  if !userExists userID db then
    ⟨some "User not found!", db⟩
  else if !flightExists flightNumber db then
    ⟨some "Flight doesn\x27t exist!", db⟩
  else if db.users.any (fun u =>
      u.flightNumber == flightNumber && u.seatNumber == seatNumber && u.userID != userID) then
    ⟨some ("Seat " ++ toString seatNumber ++ " is already taken on this flight!"), db⟩
  else
    ⟨none, { db with users := db.users.map (modifyUserRow userID name flightNumber seatNumber) }⟩

/-- Query `SELECT flightNumber FROM Users WHERE userID = ?`: first row if any,
otherwise the C++ `flightNumber` local keeps its default value `""`
(src/main.cpp, deleteUser and cancelReservation). -/
def lookupUserFlight (userID : String) (db : DB) : String :=
  match db.users.find? (fun u => u.userID == userID) with
  | some u => u.flightNumber
  | none => ""

/-- src/main.cpp, deleteUser: existence check, flight lookup,
`DELETE FROM Users WHERE userID = ?`, then — only when the looked-up
flight number is non-empty — `UPDATE Flights SET availableTickets =
availableTickets + 1 WHERE flightNumber = ?`. -/
def deleteUser (userID : String) (db : DB) : OpResult :=
  if !userExists userID db then
    ⟨some "User not found!", db⟩
  else
    let flightNumber := lookupUserFlight userID db
    let afterDelete : DB := { db with users := db.users.filter (fun u => !(u.userID == userID)) }
    if flightNumber.isEmpty then
      ⟨none, afterDelete⟩
    else
      ⟨none, { afterDelete with flights := afterDelete.flights.map (fun f =>
        if f.flightNumber == flightNumber then
          { f with availableTickets := f.availableTickets + 1 }
        else f) }⟩

/-- src/main.cpp, makeReservation: duplicate-ID check, then
`SELECT availableTickets FROM Flights WHERE flightNumber = ?` read into a
variable initialised to -1; `-1` means "Flight not found.", `<= 0` means
"No available tickets for this flight."; then the seat check, then
`INSERT INTO Users VALUES (...)` and the counter decrement.  The SELECT is
read into a C++ int initialised to -1, modelled by `lookupAvailableTickets`:
the first row's value, or the sentinel -1 when no row matches. -/
def lookupAvailableTickets (flightNumber : String) (db : DB) : Int :=
  match db.flights.find? (fun f => f.flightNumber == flightNumber) with
  | some f => f.availableTickets
  | none => -1

def makeReservation (userID flightNumber name : String) (seatNumber : Int) (db : DB) : OpResult :=
  if userExists userID db then
    ⟨some "User with this ID already exists!", db⟩
  else
    let availableTickets : Int := lookupAvailableTickets flightNumber db
    if availableTickets == -1 then
      ⟨some "Flight not found.", db⟩
    else if availableTickets ≤ 0 then
      ⟨some "No available tickets for this flight.", db⟩
    else if !isSeatAvailable flightNumber seatNumber db then
      ⟨some ("Seat " ++ toString seatNumber ++ " is already taken on this flight!"), db⟩
    else
      ⟨none, { flights := db.flights.map (fun f =>
                 if f.flightNumber == flightNumber then
                   { f with availableTickets := f.availableTickets - 1 }
                 else f),
               users := db.users ++ [⟨name, userID, flightNumber, seatNumber⟩] }⟩

/-- src/main.cpp, cancelReservation: line for line the same logic as
deleteUser (existence check, flight lookup, DELETE, guarded counter
increment). -/
def cancelReservation (userID : String) (db : DB) : OpResult :=
  if !userExists userID db then
    ⟨some "User not found!", db⟩
  else
    let flightNumber := lookupUserFlight userID db
    let afterDelete : DB := { db with users := db.users.filter (fun u => !(u.userID == userID)) }
    if flightNumber.isEmpty then
      ⟨none, afterDelete⟩
    else
      ⟨none, { afterDelete with flights := afterDelete.flights.map (fun f =>
        if f.flightNumber == flightNumber then
          { f with availableTickets := f.availableTickets + 1 }
        else f) }⟩

/- Key uniqueness invariants of the Users table.

The Users table carries `PRIMARY KEY (userID)` and
`UNIQUE (flightNumber, seatNumber)` (src/main.cpp, initializeDatabase's
CREATE TABLE).  Every mutation goes through the operations above, so the
constraints are provable as an invariant of all reachable states. -/

/-- The `(flightNumber, seatNumber)` key of a Users row. -/
def userKey (u : User) : String × Int := (u.flightNumber, u.seatNumber)

/-- Constraint `UNIQUE(flightNumber, seatNumber)` of the Users table. -/
def SeatUnique (db : DB) : Prop := (db.users.map userKey).Nodup

/-- Constraint `userID TEXT PRIMARY KEY` of the Users table. -/
def UserIDUnique (db : DB) : Prop := (db.users.map User.userID).Nodup

def UsersInv (db : DB) : Prop := UserIDUnique db ∧ SeatUnique db

/-- States reachable from the empty database through the program's
operations. -/
inductive Reachable : DB → Prop where
  | init : Reachable ⟨[], []⟩
  | addFlightStep (fn an sp dt : String) (t : Int) (db : DB) :
      Reachable db → Reachable (addFlight fn an sp dt t db).db
  | modifyFlightStep (fn an sp dt : String) (t a : Int) (db : DB) :
      Reachable db → Reachable (modifyFlight fn an sp dt t a db).db
  | deleteFlightStep (fn : String) (db : DB) :
      Reachable db → Reachable (deleteFlight fn db).db
  | addUserStep (uid nm fn : String) (sn : Int) (db : DB) :
      Reachable db → Reachable (addUser uid nm fn sn db).db
  | modifyUserStep (uid nm fn : String) (sn : Int) (db : DB) :
      Reachable db → Reachable (modifyUser uid nm fn sn db).db
  | deleteUserStep (uid : String) (db : DB) :
      Reachable db → Reachable (deleteUser uid db).db
  | makeReservationStep (uid fn nm : String) (sn : Int) (db : DB) :
      Reachable db → Reachable (makeReservation uid fn nm sn db).db
  | cancelReservationStep (uid : String) (db : DB) :
      Reachable db → Reachable (cancelReservation uid db).db

theorem nodup_map_append {α β : Type} (f : α → β) (l : List α) (x : α)
    (h1 : (l.map f).Nodup) (h2 : ∀ y ∈ l, f y ≠ f x) :
    ((l ++ [x]).map f).Nodup := by
  rw [List.map_append, List.nodup_append]
  refine ⟨h1, List.nodup_singleton _, ?_⟩
  intro a ha hmem
  rcases List.mem_map.mp ha with ⟨y, hy, rfl⟩
  simp only [List.map_cons, List.map_nil, List.mem_singleton] at hmem
  exact h2 y hy hmem

theorem nodup_map_filter {α β : Type} (f : α → β) (p : α → Bool) (l : List α)
    (h : (l.map f).Nodup) : ((l.filter p).map f).Nodup :=
  List.Nodup.sublist (List.Sublist.map f (List.filter_sublist l)) h

theorem userExists_false_spec (uid : String) (db : DB) (h : userExists uid db = false) :
    ∀ u ∈ db.users, u.userID ≠ uid := by
  intro u hu
  simp only [userExists, List.any_eq_false] at h
  have hne := h u hu
  simpa [beq_iff_eq] using hne

theorem isSeatAvailable_true_spec (fn : String) (sn : Int) (db : DB)
    (h : isSeatAvailable fn sn db = true) :
    ∀ u ∈ db.users, userKey u ≠ (fn, sn) := by
  intro u hu heq
  simp only [isSeatAvailable, Bool.not_eq_true', List.any_eq_false] at h
  have h2 := h u hu
  apply h2
  have e : u.flightNumber = fn ∧ u.seatNumber = sn := by
    simpa [userKey, Prod.ext_iff] using heq
  simp [e.1, e.2]

theorem modifyUser_check_spec (uid fn : String) (sn : Int) (db : DB)
    (h : (db.users.any (fun u =>
        u.flightNumber == fn && u.seatNumber == sn && u.userID != uid)) = false) :
    ∀ u ∈ db.users, u.flightNumber = fn → u.seatNumber = sn → u.userID = uid := by
  intro u hu e1 e2
  simp only [List.any_eq_false] at h
  have h2 := h u hu
  by_contra hne
  apply h2
  simp [e1, e2, hne]

theorem modifyUserRow_userID (uid nm fn : String) (sn : Int) (u : User) :
    (modifyUserRow uid nm fn sn u).userID = u.userID := by
  unfold modifyUserRow
  split <;> rfl

theorem map_userID_modifyUserRow (uid nm fn : String) (sn : Int) (l : List User) :
    (l.map (modifyUserRow uid nm fn sn)).map User.userID = l.map User.userID := by
  rw [List.map_map]
  apply List.map_congr_left
  intro u _
  exact modifyUserRow_userID uid nm fn sn u

theorem seatUnique_map_modifyUserRow (uid nm fn : String) (sn : Int) (l : List User)
    (hid : (l.map User.userID).Nodup) (hseat : (l.map userKey).Nodup)
    (hcheck : ∀ u ∈ l, u.flightNumber = fn → u.seatNumber = sn → u.userID = uid) :
    ((l.map (modifyUserRow uid nm fn sn)).map userKey).Nodup := by
  rw [List.map_map]
  induction l with
  | nil => simp
  | cons a l ih =>
    rw [List.map_cons, List.nodup_cons] at hid hseat
    rw [List.map_cons, List.nodup_cons]
    refine ⟨?_, ih hid.2 hseat.2 (fun u hu => hcheck u (List.mem_cons_of_mem a hu))⟩
    intro hmem
    rcases List.mem_map.mp hmem with ⟨v, hv, hveq⟩
    by_cases ha : a.userID = uid
    · -- the head row is the one being rewritten; its new key is (fn, sn)
      have hupda : (userKey ∘ modifyUserRow uid nm fn sn) a = (fn, sn) := by
        simp [modifyUserRow, userKey, ha]
      have hvne : v.userID ≠ uid := by
        intro hvid
        exact hid.1 (by rw [← ha] at hvid; exact hvid ▸ List.mem_map_of_mem User.userID hv)
      have hupdv : (userKey ∘ modifyUserRow uid nm fn sn) v = userKey v := by
        simp [modifyUserRow, hvne]
      rw [hupda] at hveq
      rw [hupdv] at hveq
      have e : v.flightNumber = fn ∧ v.seatNumber = sn := by
        simpa [userKey, Prod.ext_iff] using hveq
      exact hvne (hcheck v (List.mem_cons_of_mem a hv) e.1 e.2)
    · have hupda : (userKey ∘ modifyUserRow uid nm fn sn) a = userKey a := by
        simp [modifyUserRow, ha]
      rw [hupda] at hveq
      by_cases hv2 : v.userID = uid
      · have hupdv : (userKey ∘ modifyUserRow uid nm fn sn) v = (fn, sn) := by
          simp [modifyUserRow, userKey, hv2]
        rw [hupdv] at hveq
        have e : a.flightNumber = fn ∧ a.seatNumber = sn := by
          simpa [userKey, Prod.ext_iff] using hveq.symm
        exact ha (hcheck a (List.mem_cons_self a l) e.1 e.2)
      · have hupdv : (userKey ∘ modifyUserRow uid nm fn sn) v = userKey v := by
          simp [modifyUserRow, hv2]
        rw [hupdv] at hveq
        exact hseat.1 (hveq ▸ List.mem_map_of_mem userKey hv)

theorem usersInv_addFlight (fn an sp dt : String) (t : Int) (db : DB) (h : UsersInv db) :
    UsersInv (addFlight fn an sp dt t db).db := by
  unfold addFlight
  split
  · exact h
  · exact h

theorem usersInv_modifyFlight (fn an sp dt : String) (t a : Int) (db : DB) (h : UsersInv db) :
    UsersInv (modifyFlight fn an sp dt t a db).db := by
  unfold modifyFlight
  split
  · exact h
  · exact h

theorem usersInv_deleteFlight (fn : String) (db : DB) (h : UsersInv db) :
    UsersInv (deleteFlight fn db).db := by
  unfold deleteFlight
  split
  · exact h
  · exact ⟨nodup_map_filter User.userID _ db.users h.1, nodup_map_filter userKey _ db.users h.2⟩

theorem usersInv_addUser (uid nm fn : String) (sn : Int) (db : DB) (h : UsersInv db) :
    UsersInv (addUser uid nm fn sn db).db := by
  unfold addUser
  split
  · exact h
  next h1 =>
    split
    · exact h
    · split
      · exact h
      next h3 =>
        have hu : userExists uid db = false := by simpa using h1
        have hs : isSeatAvailable fn sn db = true := by simpa using h3
        exact ⟨nodup_map_append User.userID db.users _ h.1
                 (fun y hy => userExists_false_spec uid db hu y hy),
               nodup_map_append userKey db.users _ h.2
                 (fun y hy => isSeatAvailable_true_spec fn sn db hs y hy)⟩

theorem usersInv_modifyUser (uid nm fn : String) (sn : Int) (db : DB) (h : UsersInv db) :
    UsersInv (modifyUser uid nm fn sn db).db := by
  unfold modifyUser
  split
  · exact h
  · split
    · exact h
    · split
      · exact h
      next h3 =>
        have hc : (db.users.any fun u =>
            u.flightNumber == fn && u.seatNumber == sn && u.userID != uid) = false := by
          simpa using h3
        constructor
        · have : ((db.users.map (modifyUserRow uid nm fn sn)).map User.userID).Nodup := by
            rw [map_userID_modifyUserRow]; exact h.1
          exact this
        · exact seatUnique_map_modifyUserRow uid nm fn sn db.users h.1 h.2
            (modifyUser_check_spec uid fn sn db hc)

theorem usersInv_deleteUser (uid : String) (db : DB) (h : UsersInv db) :
    UsersInv (deleteUser uid db).db := by
  simp only [deleteUser]
  split
  · exact h
  · split
    · exact ⟨nodup_map_filter User.userID _ db.users h.1,
             nodup_map_filter userKey _ db.users h.2⟩
    · exact ⟨nodup_map_filter User.userID _ db.users h.1,
             nodup_map_filter userKey _ db.users h.2⟩

theorem usersInv_cancelReservation (uid : String) (db : DB) (h : UsersInv db) :
    UsersInv (cancelReservation uid db).db := by
  simp only [cancelReservation]
  split
  · exact h
  · split
    · exact ⟨nodup_map_filter User.userID _ db.users h.1,
             nodup_map_filter userKey _ db.users h.2⟩
    · exact ⟨nodup_map_filter User.userID _ db.users h.1,
             nodup_map_filter userKey _ db.users h.2⟩

theorem usersInv_makeReservation (uid fn nm : String) (sn : Int) (db : DB) (h : UsersInv db) :
    UsersInv (makeReservation uid fn nm sn db).db := by
  cases hu : userExists uid db with
  | true => simpa [makeReservation, hu] using h
  | false =>
    cases hs : isSeatAvailable fn sn db with
    | false =>
      simp only [makeReservation, hu, hs, Bool.not_false, Bool.not_true, if_true, if_false,
        Bool.false_eq_true, ite_false]
      split
      · exact h
      · split
        · exact h
        · exact h
    | true =>
      simp only [makeReservation, hu, hs, Bool.not_false, Bool.not_true, if_true, if_false,
        Bool.false_eq_true, ite_false]
      split
      · exact h
      · split
        · exact h
        · exact ⟨nodup_map_append User.userID db.users _ h.1
                   (fun y hy => userExists_false_spec uid db hu y hy),
                 nodup_map_append userKey db.users _ h.2
                   (fun y hy => isSeatAvailable_true_spec fn sn db hs y hy)⟩

theorem reachable_usersInv (db : DB) (h : Reachable db) : UsersInv db := by
  induction h with
  | init => exact ⟨List.nodup_nil, List.nodup_nil⟩
  | addFlightStep fn an sp dt t db _ ih => exact usersInv_addFlight fn an sp dt t db ih
  | modifyFlightStep fn an sp dt t a db _ ih => exact usersInv_modifyFlight fn an sp dt t a db ih
  | deleteFlightStep fn db _ ih => exact usersInv_deleteFlight fn db ih
  | addUserStep uid nm fn sn db _ ih => exact usersInv_addUser uid nm fn sn db ih
  | modifyUserStep uid nm fn sn db _ ih => exact usersInv_modifyUser uid nm fn sn db ih
  | deleteUserStep uid db _ ih => exact usersInv_deleteUser uid db ih
  | makeReservationStep uid fn nm sn db _ ih => exact usersInv_makeReservation uid fn nm sn db ih
  | cancelReservationStep uid db _ ih => exact usersInv_cancelReservation uid db ih

theorem countP_le_one_of_nodup_map {α β : Type} (f : α → β) (p : α → Bool) (b : β)
    (hp : ∀ a, p a = true → f a = b) (l : List α) (h : (l.map f).Nodup) :
    l.countP p ≤ 1 := by
  induction l with
  | nil => simp
  | cons a l ih =>
    rw [List.map_cons, List.nodup_cons] at h
    rw [List.countP_cons]
    by_cases hpa : p a = true
    · have hzero : l.countP p = 0 := by
        rw [List.countP_eq_zero]
        intro x hx hpx
        have hmem := List.mem_map_of_mem f hx
        rw [hp x hpx, ← hp a hpa] at hmem
        exact h.1 hmem
      simp [hzero, hpa]
    · simpa [hpa] using ih h.2

/-- C1: Seat-uniqueness invariant: in every database state reachable through
the program's operations (addFlight, modifyFlight, deleteFlight, addUser,
modifyUser, deleteUser, makeReservation, cancelReservation), for every flight
F and seat S there is at most one Users row with (flightNumber = F,
seatNumber = S); every operation preserves this. -/
theorem seat_uniqueness_invariant (db : DB) (h : Reachable db) (fn : String) (sn : Int) :
    db.users.countP (fun u => u.flightNumber == fn && u.seatNumber == sn) ≤ 1 := by
  have hinv := reachable_usersInv db h
  apply countP_le_one_of_nodup_map userKey _ (fn, sn) ?_ db.users hinv.2
  intro u hu
  simp only [Bool.and_eq_true, beq_iff_eq] at hu
  simp [userKey, hu.1, hu.2]

/-- Witness for C1 at a concrete reachable state (a flight with one booking). -/
theorem seat_uniqueness_invariant_witness :
    ((addUser "U1" "Bob" "AA100" 1 (addFlight "AA100" "Delta" "X" "Y" 2 ⟨[], []⟩).db).db).users.countP
      (fun u => u.flightNumber == "AA100" && u.seatNumber == 1) ≤ 1 :=
  seat_uniqueness_invariant _
    (Reachable.addUserStep "U1" "Bob" "AA100" 1 _
      (Reachable.addFlightStep "AA100" "Delta" "X" "Y" 2 _ Reachable.init))
    "AA100" 1

/-- C2: addFlight contract: with an existing flightNumber it fails with a
user-visible message and mutates nothing; otherwise it appends the Flight row
with availableTickets = totalTickets, leaves Users alone, and afterwards
flightExists(flightNumber) holds. -/
theorem addFlight_contract (fn an sp dt : String) (t : Int) (db : DB) :
    (flightExists fn db = true →
        addFlight fn an sp dt t db = ⟨some "Flight with this number already exists!", db⟩)
  ∧ (flightExists fn db = false →
        (addFlight fn an sp dt t db).err = none
      ∧ (addFlight fn an sp dt t db).db.flights = db.flights ++ [⟨fn, an, sp, dt, t, t⟩]
      ∧ (addFlight fn an sp dt t db).db.users = db.users
      ∧ flightExists fn (addFlight fn an sp dt t db).db = true) := by
  constructor
  · intro hex
    simp [addFlight, hex]
  · intro hex
    have hfl : (addFlight fn an sp dt t db).db.flights = db.flights ++ [⟨fn, an, sp, dt, t, t⟩] := by
      simp [addFlight, hex]
    refine ⟨?_, hfl, ?_, ?_⟩
    · simp [addFlight, hex]
    · simp [addFlight, hex]
    · simp [flightExists, hfl, List.any_append]

/-- Witness for C2: success on an empty database, failure on a duplicate. -/
theorem addFlight_contract_witness :
    ((addFlight "AA100" "Delta" "X" "Y" 2 ⟨[], []⟩).err = none
      ∧ flightExists "AA100" (addFlight "AA100" "Delta" "X" "Y" 2 ⟨[], []⟩).db = true)
  ∧ addFlight "AA100" "D2" "P" "Q" 3 ⟨[⟨"AA100", "Delta", "X", "Y", 2, 2⟩], []⟩
      = ⟨some "Flight with this number already exists!", ⟨[⟨"AA100", "Delta", "X", "Y", 2, 2⟩], []⟩⟩ :=
  ⟨⟨((addFlight_contract "AA100" "Delta" "X" "Y" 2 ⟨[], []⟩).2 (by decide)).1,
    ((addFlight_contract "AA100" "Delta" "X" "Y" 2 ⟨[], []⟩).2 (by decide)).2.2.2⟩,
   (addFlight_contract "AA100" "D2" "P" "Q" 3 ⟨[⟨"AA100", "Delta", "X", "Y", 2, 2⟩], []⟩).1 (by decide)⟩

/-- C4: Validation-failure atomicity: whenever any of the eight operations
aborts with a validation message (err is some), the returned database state
is exactly the input state — both tables, including every availableTickets
counter. -/
theorem validation_failure_atomicity (fn an sp dt uid nm : String) (t a sn : Int) (db : DB) :
    ((addFlight fn an sp dt t db).err.isSome → (addFlight fn an sp dt t db).db = db)
  ∧ ((modifyFlight fn an sp dt t a db).err.isSome → (modifyFlight fn an sp dt t a db).db = db)
  ∧ ((deleteFlight fn db).err.isSome → (deleteFlight fn db).db = db)
  ∧ ((addUser uid nm fn sn db).err.isSome → (addUser uid nm fn sn db).db = db)
  ∧ ((modifyUser uid nm fn sn db).err.isSome → (modifyUser uid nm fn sn db).db = db)
  ∧ ((deleteUser uid db).err.isSome → (deleteUser uid db).db = db)
  ∧ ((makeReservation uid fn nm sn db).err.isSome → (makeReservation uid fn nm sn db).db = db)
  ∧ ((cancelReservation uid db).err.isSome → (cancelReservation uid db).db = db) := by
  refine ⟨?_, ?_, ?_, ?_, ?_, ?_, ?_, ?_⟩ <;>
    simp only [addFlight, modifyFlight, deleteFlight, addUser, modifyUser, deleteUser,
      makeReservation, cancelReservation] <;>
    (repeat' split) <;> simp

/-- Witness for C4: a duplicate addFlight leaves the database untouched. -/
theorem validation_failure_atomicity_witness :
    (addFlight "AA100" "D2" "P" "Q" 3 ⟨[⟨"AA100", "Delta", "X", "Y", 2, 2⟩], []⟩).db
      = ⟨[⟨"AA100", "Delta", "X", "Y", 2, 2⟩], []⟩ :=
  (validation_failure_atomicity "AA100" "D2" "P" "Q" "U1" "Bob" 3 1 1
      ⟨[⟨"AA100", "Delta", "X", "Y", 2, 2⟩], []⟩).1 (by decide)

/-- C6: modifyUser frame property: on success only the matching Users row's
name/flightNumber/seatNumber are overwritten (userIDs are untouched) and the
Flights table — in particular every availableTickets counter, of the old
flight as well as of the new one — is exactly unchanged. -/
theorem modifyUser_frame (uid nm fn : String) (sn : Int) (db : DB)
    (h : (modifyUser uid nm fn sn db).err = none) :
    (modifyUser uid nm fn sn db).db.flights = db.flights
  ∧ (modifyUser uid nm fn sn db).db.users = db.users.map (modifyUserRow uid nm fn sn)
  ∧ (modifyUser uid nm fn sn db).db.users.map User.userID = db.users.map User.userID := by
  cases h1 : userExists uid db with
  | false => simp [modifyUser, h1] at h
  | true =>
    cases h2 : flightExists fn db with
    | false => simp [modifyUser, h1, h2] at h
    | true =>
      cases h3 : db.users.any (fun u =>
          u.flightNumber == fn && u.seatNumber == sn && u.userID != uid) with
      | true => simp [modifyUser, h1, h2, h3] at h
      | false =>
        refine ⟨?_, ?_, ?_⟩ <;>
          simp [modifyUser, h1, h2, h3, map_userID_modifyUserRow, modifyUserRow_userID]

/-- Witness for C6: moving the only passenger from flight A to flight B leaves
both counters as they were. -/
theorem modifyUser_frame_witness :
    (modifyUser "U1" "New" "B" 2
        ⟨[⟨"A", "Air", "X", "Y", 5, 4⟩, ⟨"B", "Air2", "P", "Q", 5, 5⟩],
         [⟨"Bob", "U1", "A", 1⟩]⟩).db.flights
      = [⟨"A", "Air", "X", "Y", 5, 4⟩, ⟨"B", "Air2", "P", "Q", 5, 5⟩] :=
  (modifyUser_frame "U1" "New" "B" 2
      ⟨[⟨"A", "Air", "X", "Y", 5, 4⟩, ⟨"B", "Air2", "P", "Q", 5, 5⟩],
       [⟨"Bob", "U1", "A", 1⟩]⟩ (by decide)).1

/-- C8: cancelReservation and deleteUser are functionally identical: same
success/failure conditions, same message, same resulting database state, for
every input and every starting state. -/
theorem cancelReservation_eq_deleteUser (uid : String) (db : DB) :
    cancelReservation uid db = deleteUser uid db := rfl

theorem find?_map_key_preserving {α : Type} (p : α → Bool) (g : α → α)
    (hg : ∀ x, p (g x) = p x) (l : List α) :
    (l.map g).find? p = (l.find? p).map g := by
  induction l with
  | nil => rfl
  | cons a l ih =>
    rw [List.map_cons]
    by_cases hpa : p a = true
    · rw [List.find?_cons_of_pos l hpa, List.find?_cons_of_pos (l.map g) (by rw [hg]; exact hpa)]
      rfl
    · rw [List.find?_cons_of_neg l hpa, List.find?_cons_of_neg (l.map g) (by rw [hg]; exact hpa)]
      exact ih

theorem flightExists_of_find? (fn : String) (db : DB) (F : Flight)
    (h : db.flights.find? (fun f => f.flightNumber == fn) = some F) :
    flightExists fn db = true := by
  have hmem := List.mem_of_find?_eq_some h
  have hp := List.find?_some h
  simp only [flightExists, List.any_eq_true]
  exact ⟨F, hmem, hp⟩

theorem addUser_success (uid nm fn : String) (sn : Int) (db : DB)
    (hu : userExists uid db = false) (hfe : flightExists fn db = true)
    (hs : isSeatAvailable fn sn db = true) :
    addUser uid nm fn sn db =
      ⟨none, ⟨db.flights.map (fun f =>
                if f.flightNumber == fn then
                  { f with availableTickets := f.availableTickets - 1 }
                else f),
              db.users ++ [⟨nm, uid, fn, sn⟩]⟩⟩ := by
  simp [addUser, hu, hfe, hs]

theorem decrement_preserves_key (fn : String) :
    ∀ f : Flight, ((if f.flightNumber == fn then
        { f with availableTickets := f.availableTickets - 1 } else f).flightNumber == fn)
      = (f.flightNumber == fn) := by
  intro f
  split <;> rfl

/-- C3: addUser success contract: with a fresh userID, an existing referenced
flight F (with availableTickets > 0) and a free seat, addUser succeeds,
appends exactly one Users row, and decrements F's availableTickets by exactly
1; and addUser fails whenever the userID exists, or the flight is absent, or
the seat is taken. -/
theorem addUser_contract (uid nm fn : String) (sn : Int) (db : DB) (F : Flight) :
    (userExists uid db = false →
     db.flights.find? (fun f => f.flightNumber == fn) = some F →
     F.availableTickets > 0 →
     isSeatAvailable fn sn db = true →
        (addUser uid nm fn sn db).err = none
      ∧ (addUser uid nm fn sn db).db.users = db.users ++ [⟨nm, uid, fn, sn⟩]
      ∧ (addUser uid nm fn sn db).db.flights.find? (fun f => f.flightNumber == fn)
          = some { F with availableTickets := F.availableTickets - 1 })
  ∧ (userExists uid db = true → (addUser uid nm fn sn db).err.isSome)
  ∧ (flightExists fn db = false → (addUser uid nm fn sn db).err.isSome)
  ∧ (isSeatAvailable fn sn db = false → (addUser uid nm fn sn db).err.isSome) := by
  refine ⟨?_, ?_, ?_, ?_⟩
  · intro hu hF _ hs
    have hfe := flightExists_of_find? fn db F hF
    rw [addUser_success uid nm fn sn db hu hfe hs]
    refine ⟨rfl, rfl, ?_⟩
    have hmap := find?_map_key_preserving (fun f => f.flightNumber == fn)
      (fun f => if f.flightNumber == fn then
          { f with availableTickets := f.availableTickets - 1 } else f)
      (decrement_preserves_key fn) db.flights
    rw [hmap, hF]
    have hfeq : F.flightNumber = fn := by simpa using List.find?_some hF
    simp [hfeq]
  · intro h
    simp [addUser, h]
  · intro h
    cases hu : userExists uid db <;> simp [addUser, hu, h]
  · intro h
    cases hu : userExists uid db <;> cases hfe : flightExists fn db <;>
      simp [addUser, hu, hfe, h]

/-- Witness for C3: booking seat 1 on a two-seat flight decrements the counter
from 2 to 1. -/
theorem addUser_contract_witness :
    (addUser "U1" "Bob" "AA100" 1 ⟨[⟨"AA100", "Delta", "X", "Y", 2, 2⟩], []⟩).err = none
  ∧ (addUser "U1" "Bob" "AA100" 1
        ⟨[⟨"AA100", "Delta", "X", "Y", 2, 2⟩], []⟩).db.flights.find?
      (fun f => f.flightNumber == "AA100") = some ⟨"AA100", "Delta", "X", "Y", 2, 1⟩ := by
  have h := (addUser_contract "U1" "Bob" "AA100" 1
      ⟨[⟨"AA100", "Delta", "X", "Y", 2, 2⟩], []⟩ ⟨"AA100", "Delta", "X", "Y", 2, 2⟩).1
    (by decide) (by decide) (by decide) (by decide)
  exact ⟨h.1, by simpa using h.2.2⟩

/-- C5: deleteFlight contract: absent flight → failure with no change; present
flight F → success, every Users row referencing F removed (each such user no
longer exists afterwards), F removed (flightExists F is false afterwards), and
all other flights and users kept verbatim. -/
theorem deleteFlight_contract (fn : String) (db : DB) :
    (flightExists fn db = false → deleteFlight fn db = ⟨some "Flight not found!", db⟩)
  ∧ (flightExists fn db = true →
        (deleteFlight fn db).err = none
      ∧ (deleteFlight fn db).db.users = db.users.filter (fun u => !(u.flightNumber == fn))
      ∧ (deleteFlight fn db).db.flights = db.flights.filter (fun f => !(f.flightNumber == fn))
      ∧ flightExists fn (deleteFlight fn db).db = false
      ∧ (UserIDUnique db →
          ∀ u ∈ db.users, u.flightNumber = fn →
            userExists u.userID (deleteFlight fn db).db = false)) := by
  constructor
  · intro hex
    simp [deleteFlight, hex]
  · intro hex
    have hred : deleteFlight fn db =
        ⟨none, ⟨db.flights.filter (fun f => !(f.flightNumber == fn)),
                db.users.filter (fun u => !(u.flightNumber == fn))⟩⟩ := by
      simp [deleteFlight, hex]
    refine ⟨by rw [hred], by rw [hred], by rw [hred], ?_, ?_⟩
    · rw [hred]
      simp only [flightExists, List.any_eq_false]
      intro f hf
      rw [List.mem_filter] at hf
      simpa using hf.2
    · intro hnodup u hu hufn
      rw [hred]
      simp only [userExists, List.any_eq_false]
      intro v hv
      rw [List.mem_filter] at hv
      intro hvid
      have hveq : v = u := List.inj_on_of_nodup_map hnodup hv.1 hu (by simpa using hvid)
      rw [hveq] at hv
      have h2 := hv.2
      simp [hufn] at h2

/-- Witness for C5: deleting flight AA100 removes its passenger U1 and leaves
flight BB200 and its passenger U2 alone. -/
theorem deleteFlight_contract_witness :
    (deleteFlight "AA100"
        ⟨[⟨"AA100", "Delta", "X", "Y", 2, 1⟩, ⟨"BB200", "Air", "P", "Q", 3, 2⟩],
         [⟨"Bob", "U1", "AA100", 1⟩, ⟨"Eve", "U2", "BB200", 1⟩]⟩).err = none
  ∧ userExists "U1" (deleteFlight "AA100"
        ⟨[⟨"AA100", "Delta", "X", "Y", 2, 1⟩, ⟨"BB200", "Air", "P", "Q", 3, 2⟩],
         [⟨"Bob", "U1", "AA100", 1⟩, ⟨"Eve", "U2", "BB200", 1⟩]⟩).db = false := by
  have h := (deleteFlight_contract "AA100"
      ⟨[⟨"AA100", "Delta", "X", "Y", 2, 1⟩, ⟨"BB200", "Air", "P", "Q", 3, 2⟩],
       [⟨"Bob", "U1", "AA100", 1⟩, ⟨"Eve", "U2", "BB200", 1⟩]⟩).2 (by decide)
  exact ⟨h.1, h.2.2.2.2 (by unfold UserIDUnique; decide) ⟨"Bob", "U1", "AA100", 1⟩ (by decide) rfl⟩

theorem userExists_of_find? (uid : String) (db : DB) (u : User)
    (h : db.users.find? (fun v => v.userID == uid) = some u) :
    userExists uid db = true := by
  have hmem := List.mem_of_find?_eq_some h
  have hp := List.find?_some h
  simp only [userExists, List.any_eq_true]
  exact ⟨u, hmem, hp⟩

theorem lookupUserFlight_eq (uid : String) (db : DB) (u : User)
    (h : db.users.find? (fun v => v.userID == uid) = some u) :
    lookupUserFlight uid db = u.flightNumber := by
  unfold lookupUserFlight
  rw [h]

/-- C7 counterexample: a state built by the program's own operations — flight
"" added, user U1 booked on it (availableTickets 5 → 4) — in which deleteUser
succeeds and removes U1 but does not increment availableTickets of the
referenced flight "" (it stays 4; the claim demands 5), because the C++ code
guards the UPDATE with a non-emptiness test on the looked-up flight number. -/
theorem deleteUser_increment_counterexample :
    userExists "U1" (addUser "U1" "Bob" "" 3 (addFlight "" "Air" "X" "Y" 5 ⟨[], []⟩).db).db = true
  ∧ deleteUser "U1" (addUser "U1" "Bob" "" 3 (addFlight "" "Air" "X" "Y" 5 ⟨[], []⟩).db).db
      = ⟨none, ⟨[⟨"", "Air", "X", "Y", 5, 4⟩], []⟩⟩ := by decide

/-- C7 (amended): deleteUser fails and changes nothing for an absent userID;
for an existing user it deletes that Users row and — provided the stored
flightNumber is not the empty string — increments by exactly 1 the
availableTickets of the flight looked up before the deletion, leaving every
other row unchanged; when the stored flightNumber is the empty string the row
is deleted but no counter is incremented. -/
theorem deleteUser_contract (uid : String) (db : DB) :
    (userExists uid db = false → deleteUser uid db = ⟨some "User not found!", db⟩)
  ∧ (∀ u, db.users.find? (fun v => v.userID == uid) = some u → u.flightNumber ≠ "" →
      ∀ F, db.flights.find? (fun f => f.flightNumber == u.flightNumber) = some F →
        (deleteUser uid db).err = none
      ∧ (deleteUser uid db).db.users = db.users.filter (fun v => !(v.userID == uid))
      ∧ (deleteUser uid db).db.flights.find? (fun f => f.flightNumber == u.flightNumber)
          = some { F with availableTickets := F.availableTickets + 1 }
      ∧ ∀ G ∈ db.flights, G.flightNumber ≠ u.flightNumber →
          G ∈ (deleteUser uid db).db.flights)
  ∧ (∀ u, db.users.find? (fun v => v.userID == uid) = some u → u.flightNumber = "" →
        (deleteUser uid db).err = none
      ∧ (deleteUser uid db).db.users = db.users.filter (fun v => !(v.userID == uid))
      ∧ (deleteUser uid db).db.flights = db.flights) := by
  refine ⟨?_, ?_, ?_⟩
  · intro hne
    simp [deleteUser, hne]
  · intro u hfind hne F hF
    have huex := userExists_of_find? uid db u hfind
    have hlook := lookupUserFlight_eq uid db u hfind
    have hie : u.flightNumber.isEmpty = false := by
      cases hb : u.flightNumber.isEmpty
      · rfl
      · exact absurd ((String.isEmpty_iff u.flightNumber).mp hb) hne
    have hred : deleteUser uid db =
        ⟨none, ⟨db.flights.map (fun f => if f.flightNumber == u.flightNumber then
                  { f with availableTickets := f.availableTickets + 1 } else f),
                db.users.filter (fun v => !(v.userID == uid))⟩⟩ := by
      simp [deleteUser, huex, hlook, hie]
    refine ⟨by rw [hred], by rw [hred], ?_, ?_⟩
    · rw [hred]
      have hg : ∀ f : Flight, ((if f.flightNumber == u.flightNumber then
            { f with availableTickets := f.availableTickets + 1 } else f).flightNumber
              == u.flightNumber) = (f.flightNumber == u.flightNumber) := by
        intro f; split <;> rfl
      show (db.flights.map _).find? _ = _
      rw [find?_map_key_preserving _ _ hg db.flights, hF]
      have hfeq : F.flightNumber = u.flightNumber := by simpa using List.find?_some hF
      simp [hfeq]
    · intro G hG hne2
      rw [hred]
      have hinc : (if G.flightNumber = u.flightNumber then
          { G with availableTickets := G.availableTickets + 1 } else G) = G := if_neg hne2
      have hmem := List.mem_map_of_mem (fun f => if f.flightNumber == u.flightNumber then
          { f with availableTickets := f.availableTickets + 1 } else f) hG
      simpa [hinc] using hmem
  · intro u hfind hempty
    have huex := userExists_of_find? uid db u hfind
    have hlook := lookupUserFlight_eq uid db u hfind
    have hie : u.flightNumber.isEmpty = true := (String.isEmpty_iff u.flightNumber).mpr hempty
    have hred : deleteUser uid db =
        ⟨none, ⟨db.flights, db.users.filter (fun v => !(v.userID == uid))⟩⟩ := by
      simp [deleteUser, huex, hlook, hie]
    exact ⟨by rw [hred], by rw [hred], by rw [hred]⟩

/-- Witness for C7 (amended), following the spec scenario: deleting U1 (seat 1
on AA100, availableTickets 1) restores availableTickets to 2. -/
theorem deleteUser_contract_witness :
    (deleteUser "U1" ⟨[⟨"AA100", "Delta", "X", "Y", 2, 1⟩], [⟨"Bob", "U1", "AA100", 1⟩]⟩).err = none
  ∧ (deleteUser "U1"
        ⟨[⟨"AA100", "Delta", "X", "Y", 2, 1⟩], [⟨"Bob", "U1", "AA100", 1⟩]⟩).db.flights.find?
      (fun f => f.flightNumber == "AA100") = some ⟨"AA100", "Delta", "X", "Y", 2, 2⟩ := by
  have h := (deleteUser_contract "U1"
      ⟨[⟨"AA100", "Delta", "X", "Y", 2, 1⟩], [⟨"Bob", "U1", "AA100", 1⟩]⟩).2.1
    ⟨"Bob", "U1", "AA100", 1⟩ (by decide) (by decide) ⟨"AA100", "Delta", "X", "Y", 2, 1⟩ (by decide)
  exact ⟨h.1, by simpa using h.2.2.1⟩

/-- C9: Capacity-check asymmetry: on a database where flight F exists with
availableTickets = 0, the requested seat is free and the userID is fresh,
addUser succeeds and pushes the counter to -1, while makeReservation on the
same inputs fails with the no-tickets message and changes nothing. -/
theorem capacity_check_asymmetry (uid nm fn : String) (sn : Int) (db : DB) (F : Flight)
    (hu : userExists uid db = false)
    (hF : db.flights.find? (fun f => f.flightNumber == fn) = some F)
    (h0 : F.availableTickets = 0)
    (hs : isSeatAvailable fn sn db = true) :
    (addUser uid nm fn sn db).err = none
  ∧ (addUser uid nm fn sn db).db.flights.find? (fun f => f.flightNumber == fn)
      = some { F with availableTickets := -1 }
  ∧ makeReservation uid fn nm sn db = ⟨some "No available tickets for this flight.", db⟩ := by
  have hfe := flightExists_of_find? fn db F hF
  refine ⟨?_, ?_, ?_⟩
  · rw [addUser_success uid nm fn sn db hu hfe hs]
  · rw [addUser_success uid nm fn sn db hu hfe hs]
    show (db.flights.map _).find? _ = _
    rw [find?_map_key_preserving _ _ (decrement_preserves_key fn) db.flights, hF]
    have hfeq : F.flightNumber = fn := by simpa using List.find?_some hF
    simp [hfeq, h0]
  · have hlat : lookupAvailableTickets fn db = 0 := by
      unfold lookupAvailableTickets
      rw [hF]
      exact h0
    simp [makeReservation, hu, hlat]

/-- Witness for C9 on a concrete sold-out flight. -/
theorem capacity_check_asymmetry_witness :
    (addUser "U1" "Bob" "F0" 1 ⟨[⟨"F0", "Air", "X", "Y", 2, 0⟩], []⟩).err = none
  ∧ makeReservation "U1" "F0" "Bob" 1 ⟨[⟨"F0", "Air", "X", "Y", 2, 0⟩], []⟩
      = ⟨some "No available tickets for this flight.", ⟨[⟨"F0", "Air", "X", "Y", 2, 0⟩], []⟩⟩ := by
  have h := capacity_check_asymmetry "U1" "Bob" "F0" 1 ⟨[⟨"F0", "Air", "X", "Y", 2, 0⟩], []⟩
      ⟨"F0", "Air", "X", "Y", 2, 0⟩ (by decide) (by decide) rfl (by decide)
  exact ⟨h.1, h.2.2⟩

/-- C10: Sentinel conflation in makeReservation: with a fresh userID, a flight
whose stored availableTickets is -1 makes makeReservation answer exactly the
"Flight not found." failure of an absent flight; and such a state is reachable
because modifyFlight writes any requested integer (here -1) into
availableTickets of an existing flight. -/
theorem makeReservation_sentinel_conflation (uid fn nm an sp dt : String) (sn t : Int) (db : DB) :
    (userExists uid db = false →
        (∀ F, db.flights.find? (fun f => f.flightNumber == fn) = some F →
            F.availableTickets = -1 →
            makeReservation uid fn nm sn db = ⟨some "Flight not found.", db⟩)
      ∧ (db.flights.find? (fun f => f.flightNumber == fn) = none →
            makeReservation uid fn nm sn db = ⟨some "Flight not found.", db⟩))
  ∧ (flightExists fn db = true →
        lookupAvailableTickets fn (modifyFlight fn an sp dt t (-1) db).db = -1) := by
  constructor
  · intro hu
    constructor
    · intro F hF hm1
      have hlat : lookupAvailableTickets fn db = -1 := by
        unfold lookupAvailableTickets
        rw [hF]
        exact hm1
      simp [makeReservation, hu, hlat]
    · intro hnone
      have hlat : lookupAvailableTickets fn db = -1 := by
        unfold lookupAvailableTickets
        rw [hnone]
      simp [makeReservation, hu, hlat]
  · intro hfe
    have hsome : (db.flights.find? (fun f => f.flightNumber == fn)).isSome := by
      rw [List.find?_isSome]
      simpa [flightExists, List.any_eq_true] using hfe
    obtain ⟨F0, hF0⟩ := Option.isSome_iff_exists.mp hsome
    have hmf : (modifyFlight fn an sp dt t (-1) db).db.flights
        = db.flights.map (fun f => if f.flightNumber == fn then
            { f with airlineName := an, startingPoint := sp, destination := dt,
                     totalTickets := t, availableTickets := -1 } else f) := by
      simp [modifyFlight, hfe]
    have hg : ∀ f : Flight, ((if f.flightNumber == fn then
          { f with airlineName := an, startingPoint := sp, destination := dt,
                   totalTickets := t, availableTickets := (-1 : Int) } else f).flightNumber == fn)
        = (f.flightNumber == fn) := by
      intro f; split <;> rfl
    unfold lookupAvailableTickets
    rw [hmf, find?_map_key_preserving _ _ hg db.flights, hF0]
    have hfeq : F0.flightNumber = fn := by simpa using List.find?_some hF0
    simp [hfeq]

/-- Witness for C10: setting availableTickets to -1 via modifyFlight makes a
present flight indistinguishable from an absent one for makeReservation. -/
theorem makeReservation_sentinel_conflation_witness :
    makeReservation "U1" "F1" "Bob" 1
        (modifyFlight "F1" "A2" "P" "Q" 5 (-1) ⟨[⟨"F1", "A", "X", "Y", 5, 5⟩], []⟩).db
      = ⟨some "Flight not found.",
         (modifyFlight "F1" "A2" "P" "Q" 5 (-1) ⟨[⟨"F1", "A", "X", "Y", 5, 5⟩], []⟩).db⟩ :=
  ((makeReservation_sentinel_conflation "U1" "F1" "Bob" "A2" "P" "Q" 1 5
      (modifyFlight "F1" "A2" "P" "Q" 5 (-1) ⟨[⟨"F1", "A", "X", "Y", 5, 5⟩], []⟩).db).1
    (by decide)).1 ⟨"F1", "A2", "P", "Q", 5, -1⟩ (by decide) rfl
